import Mathlib

/-!
Verification of the flowbro partition-consumer orchestration core
(`consumer.go`) against its natural-language specification.

The Go source is shallowly embedded: each Go function becomes a Lean
definition over explicit state; the Kafka client library (sarama) is an
oracle environment of injected functions; Go's multi-valued
`(value, err)` returns become pairs with `Option`/`Except`; calls into the
library are recorded in an operation log so that "no broker query" and
"was never attempted" properties are directly observable; `int64`/`int32`
arithmetic wraps explicitly. The concurrent bootstrap workers append to
their shared collections under mutexes in the source; the embedding runs
them sequentially in program order, which preserves every property at
issue here (error counts, emptiness, registry keys, per-worker control
flow) and fixes only the inter-worker interleaving of the shared lists.
-/

set_option autoImplicit false
set_option linter.unusedVariables false

/-- Go `error` values, modelled by their message strings. -/
abbrev GoErr := String

instance {ε α : Type} [DecidableEq ε] [DecidableEq α] : DecidableEq (Except ε α) := fun x y =>
  match x, y with
  | .ok a, .ok b =>
    match decEq a b with
    | isTrue h => isTrue (congrArg Except.ok h)
    | isFalse h => isFalse (fun hh => h (by cases hh; rfl))
  | .error a, .error b =>
    match decEq a b with
    | isTrue h => isTrue (congrArg Except.error h)
    | isFalse h => isFalse (fun hh => h (by cases hh; rfl))
  | .ok _, .error _ => isFalse (fun hh => Except.noConfusion hh)
  | .error _, .ok _ => isFalse (fun hh => Except.noConfusion hh)

/-- Two's-complement wrap-around of Go `int64` arithmetic. -/
def wrap64 (x : Int) : Int := (x + 2 ^ 63) % 2 ^ 64 - 2 ^ 63

/-- Two's-complement wrap-around of Go's `int32(...)` conversion. -/
def wrap32 (x : Int) : Int := (x + 2 ^ 31) % 2 ^ 32 - 2 ^ 31

/-- Numeric value of a decimal digit character. -/
def digitVal (c : Char) : Nat := c.toNat - 48

/-- Accumulate a decimal digit string into a natural number;
`none` when a non-digit is met (Go `strconv` syntax error). -/
def parseDigitsAux : List Char → Nat → Option Nat
  | [], acc => some acc
  | c :: cs, acc => if c.isDigit then parseDigitsAux cs (10 * acc + digitVal c) else none

/-- Go `strconv.ParseInt`'s `int64` range check: the parsed value is
returned only when it fits in 64 bits. -/
def int64Chk (v : Int) : Option Int :=
  if -(2 ^ 63) ≤ v ∧ v ≤ 2 ^ 63 - 1 then some v else none

/-- Shallow embedding of Go `strconv.ParseInt(s, 10, 64)` restricted to the
`err == nil` observation: `some n` exactly when the string is an optionally
signed decimal literal whose value fits in `int64`. -/
def parseInt64 (s : String) : Option Int :=
  match s.data with
  | [] => none
  | c0 :: cs =>
    let neg : Bool := c0 = '-'
    let digits : List Char := if c0 = '-' ∨ c0 = '+' then cs else c0 :: cs
    if digits.isEmpty then none
    else match parseDigitsAux digits 0 with
      | none => none
      | some m => int64Chk (if neg then -(m : Int) else (m : Int))

/-- sarama constant `OffsetNewest` (listen for future messages only). -/
def OffsetNewest : Int := -1

/-- sarama constant `OffsetOldest` (start from the oldest available offset). -/
def OffsetOldest : Int := -2

/-- One call into the Kafka client library, as recorded in the operation log. -/
inductive KOp where
  | newClientOp (brokers : List String)
  | newConsumerOp (client : Option Nat)
  | partitionsOp (consumer : Option Nat) (topic : String)
  | getOffsetOp (topic : String) (partition : Int) (time : Int)
  | consumePartitionOp (consumer : Option Nat) (topic : String) (partition : Int) (offset : Int)
deriving DecidableEq

/-- The broker-offset query capability of a sarama client:
`topic → partition → time sentinel → offset or error`. -/
abbrev GetOffsetFn := String → Int → Int → Except GoErr Int

/-- Shallow embedding of `resolveOffset` from `consumer.go`; alongside the
Go return value it yields the log of `client.GetOffset` broker queries it
performed. -/
def resolveOffset (configOffset : String) (brokers : List String) (topic : String)
    (partition : Int) (client : GetOffsetFn) : Except GoErr Int × List KOp :=
  if configOffset = "oldest" then (.ok OffsetOldest, [])
  else if configOffset = "newest" then (.ok OffsetNewest, [])
  else match parseInt64 configOffset with
    | some numericOffset =>
      if numericOffset ≥ -2 then (.ok numericOffset, [])
      else
        match client topic partition OffsetOldest with
        | .error e => (.error e, [.getOffsetOp topic partition OffsetOldest])
        | .ok oldest =>
          match client topic partition OffsetNewest with
          | .error e =>
            (.error e,
             [.getOffsetOp topic partition OffsetOldest, .getOffsetOp topic partition OffsetNewest])
          | .ok newest =>
            if wrap64 (newest + numericOffset) < oldest then
              (.ok oldest,
               [.getOffsetOp topic partition OffsetOldest, .getOffsetOp topic partition OffsetNewest])
            else
              (.ok (wrap64 (newest + numericOffset)),
               [.getOffsetOp topic partition OffsetOldest, .getOffsetOp topic partition OffsetNewest])
    | none => (.error "Invalid value for consumer offset", [])

/-- Modelled from the spec: the `ConsumerSpec` record (§3). Its Go
definition (`consumerConfig`, built by configuration parsing) lives outside
`src/consumer.go`; the fields are exactly those `consumer.go` reads:
`topic`, `brokers`, `partition` (`-1` meaning all partitions) and the
`offset` specifier string. -/
structure consumerConfig where
  topic : String
  brokers : List String
  partition : Int
  offset : String
deriving DecidableEq

/-- Modelled from the spec: the configuration handed to
`setupPartitionConsumers`; only its `consumers` list is read there. -/
structure Config where
  consumers : List consumerConfig
deriving DecidableEq

/-- The `cluster` record of `consumer.go`: broker identity plus the
client/consumer handles (Go interface values, `none` = nil) and the opened
partition consumers. Handles are opaque tokens (`Nat` ids) issued by the
oracle environment; the mutex field has no sequential content. -/
structure cluster where
  brokers : List String
  client : Option Nat
  consumer : Option Nat
  partitionConsumers : List Nat
deriving DecidableEq

/-- The sarama capability surface consumed by `consumer.go`, injected as an
oracle environment. Constructors return Go-style `(value, err)` pairs where
both components may independently be nil; the remaining calls return
`Except`. Close results model the `error` returned by each `Close()`. -/
structure KafkaEnv where
  newClient : List String → Option Nat × Option GoErr
  newConsumerFromClient : Option Nat → Option Nat × Option GoErr
  partitions : Option Nat → String → Except GoErr (List Int)
  getOffset : Option Nat → String → Int → Int → Except GoErr Int
  consumePartition : Option Nat → String → Int → Int → Except GoErr Nat
  closePC : Nat → Option GoErr
  closeConsumer : Option Nat → Option GoErr
  closeClient : Option Nat → Option GoErr

/-- One close attempt performed during `cluster.close`, with the error the
underlying resource reported (`none` = closed cleanly). -/
inductive CloseEvent where
  | pc (id : Nat) (err : Option GoErr)
  | consumer (err : Option GoErr)
  | client (err : Option GoErr)
deriving DecidableEq

/-- The resource a `CloseEvent` addressed, forgetting the outcome. -/
inductive CloseKind where
  | pc (id : Nat)
  | consumer
  | client
deriving DecidableEq

/-- Forget a close attempt's outcome. -/
def CloseEvent.kind : CloseEvent → CloseKind
  | .pc id _ => .pc id
  | .consumer _ => .consumer
  | .client _ => .client

/-- The partition-consumer loop of `cluster.close`: each `pc.Close()` is
attempted and its error only logged, the loop continuing either way. -/
def closePCLoop (env : KafkaEnv) : List Nat → List CloseEvent
  | [] => []
  | pcId :: rest =>
    match env.closePC pcId with
    | some err => CloseEvent.pc pcId (some err) :: closePCLoop env rest
    | none => CloseEvent.pc pcId none :: closePCLoop env rest

/-- Shallow embedding of the `(c *cluster) close()` method: close every
partition consumer, then the consumer, then the client; each error is only
logged. The value is the sequence of close attempts performed. -/
def cluster.close (env : KafkaEnv) (c : cluster) : List CloseEvent :=
  closePCLoop env c.partitionConsumers
    ++ (match env.closeConsumer c.consumer with
        | some err => [CloseEvent.consumer (some err)]
        | none => [CloseEvent.consumer none])
    ++ (match env.closeClient c.client with
        | some err => [CloseEvent.client (some err)]
        | none => [CloseEvent.client none])

/-- Shallow embedding of `closeAll`: close every cluster of the registry,
keyed by the cluster's registry key. -/
def closeAll (env : KafkaEnv) (clusters : List (String × cluster)) :
    List (String × List CloseEvent) :=
  clusters.map (fun kc => (kc.1, cluster.close env kc.2))

/-- Go `strings.Join(brokers, ",")`, the registry key of a broker list. -/
def joinComma (brokers : List String) : String := String.intercalate "," brokers

/-- Lookup in the registry, which embeds the Go `map[string]*cluster` as an
insertion-ordered association list. -/
def regLookup : List (String × cluster) → String → Option cluster
  | [], _ => none
  | (k, c) :: rest, b => if k = b then some c else regLookup rest b

/-- One step of the registry-building loop of `setupPartitionConsumers`:
insert an empty cluster for the spec's joined broker key unless present. -/
def insertCluster (reg : List (String × cluster)) (c : consumerConfig) :
    List (String × cluster) :=
  if (regLookup reg (joinComma c.brokers)).isSome then reg
  else reg ++ [(joinComma c.brokers, ⟨c.brokers, none, none, []⟩)]

/-- The registry-building loop of `setupPartitionConsumers` (lines 115-121):
one empty cluster per distinct joined broker key, first spec wins. -/
def buildClusters (consumers : List consumerConfig) : List (String × cluster) :=
  consumers.foldl insertCluster []

/-- Result of `setupClusters`: the updated registry, the collected error
list, and the log of library calls. -/
structure ClusterSetupOut where
  reg : List (String × cluster)
  errs : List GoErr
  ops : List KOp
deriving DecidableEq

/-- Go's `if err != nil { errors = append(errors, fmt.Errorf(...)) }`:
the single error message recorded for a failed open, or nothing. -/
def errMsgOpt (pre : String) : Option GoErr → List GoErr
  | some err => [pre ++ err]
  | none => []

/-- The body of one `setupClusters` worker: open a client, then a consumer
from it (passing along whatever the client open produced, nil included),
recording an error for each failed open, and assign both handles into the
cluster unconditionally. The oracle is a pure function, so the repeated
`env.newClient c.brokers` applications denote the single call Go makes. -/
def setupClustersStep (env : KafkaEnv) (c : cluster) : cluster × List GoErr × List KOp :=
  ({ c with client := (env.newClient c.brokers).1,
            consumer := (env.newConsumerFromClient (env.newClient c.brokers).1).1 },
   errMsgOpt "Error creating client. err=" (env.newClient c.brokers).2
     ++ errMsgOpt "Error creating consumer. err="
          (env.newConsumerFromClient (env.newClient c.brokers).1).2,
   [.newClientOp c.brokers, .newConsumerOp (env.newClient c.brokers).1])

/-- Shallow embedding of `setupClusters`: run the per-cluster worker for
every registry entry and aggregate the recorded errors. -/
def setupClusters (env : KafkaEnv) : List (String × cluster) → ClusterSetupOut
  | [] => ⟨[], [], []⟩
  | (k, c) :: rest =>
    let step := setupClustersStep env c
    let tail := setupClusters env rest
    ⟨(k, step.1) :: tail.reg, step.2.1 ++ tail.errs, step.2.2 ++ tail.ops⟩

/-- Result of the partition-consumer bootstrap workers: updated registry,
library-call log, collected errors and the gathered message streams
(a stream is identified by its partition consumer's id). -/
structure WorkersOut where
  reg : List (String × cluster)
  ops : List KOp
  errs : List GoErr
  chans : List Nat
deriving DecidableEq

/-- Result of one spec worker's partition loop: library-call log, collected
errors, partition consumers registered into the owning cluster, and their
message streams. -/
structure LoopOut where
  ops : List KOp
  errs : List GoErr
  pcs : List Nat
  chans : List Nat
deriving DecidableEq

/-- The `for _, partition := range partitions` loop of a
`setupPartitionConsumers` worker (lines 161-184): resolve the partition's
offset, open the partition consumer, register it; any failure records an
error and executes Go's `return`, abandoning the remaining partitions. -/
def consumeLoop (env : KafkaEnv) (clientH consumerH : Option Nat) (cc : consumerConfig) :
    List Int → LoopOut
  | [] => ⟨[], [], [], []⟩
  | p :: rest =>
    let r := resolveOffset cc.offset cc.brokers cc.topic p (env.getOffset clientH)
    match r.1 with
    | .error e =>
      ⟨r.2,
       ["Could not resolve offset for " ++ joinComma cc.brokers ++ ", " ++ cc.topic ++ ", "
          ++ toString p ++ ". err=" ++ e],
       [], []⟩
    | .ok offset =>
      match env.consumePartition consumerH cc.topic p offset with
      | .error e =>
        ⟨r.2 ++ [.consumePartitionOp consumerH cc.topic p offset],
         ["Failed to consume partition " ++ toString p ++ " err=" ++ e],
         [], []⟩
      | .ok pcId =>
        let tail := consumeLoop env clientH consumerH cc rest
        ⟨r.2 ++ [.consumePartitionOp consumerH cc.topic p offset] ++ tail.ops,
         tail.errs, pcId :: tail.pcs, pcId :: tail.chans⟩

/-- Append newly opened partition consumers to the cluster stored at `b`
(the lock-protected `cluster.partitionConsumers = append(...)`). -/
def regUpdate : List (String × cluster) → String → List Nat → List (String × cluster)
  | [], _, _ => []
  | (k, c) :: rest, b, pcs =>
    if k = b then
      (k, { c with partitionConsumers := c.partitionConsumers ++ pcs }) :: rest
    else (k, c) :: regUpdate rest b pcs

/-- One `setupPartitionConsumers` spec worker (lines 140-187): look the
cluster up by joined broker key, determine the target partitions (querying
the consumer when the spec says `-1` = all), then run the partition loop. -/
def specWorker (env : KafkaEnv) (reg : List (String × cluster)) (cc : consumerConfig) :
    WorkersOut :=
  let brokStr := joinComma cc.brokers
  match regLookup reg brokStr with
  | none => ⟨reg, [], [], []⟩
  | some cl =>
    if cc.partition = -1 then
      match env.partitions cl.consumer cc.topic with
      | .error e =>
        ⟨reg, [.partitionsOp cl.consumer cc.topic],
         ["Error fetching partitions for topic. err=" ++ e], []⟩
      | .ok parts =>
        let l := consumeLoop env cl.client cl.consumer cc parts
        ⟨regUpdate reg brokStr l.pcs, .partitionsOp cl.consumer cc.topic :: l.ops, l.errs, l.chans⟩
    else
      let l := consumeLoop env cl.client cl.consumer cc [wrap32 cc.partition]
      ⟨regUpdate reg brokStr l.pcs, l.ops, l.errs, l.chans⟩

/-- All spec workers of `setupPartitionConsumers`, in program order. -/
def runWorkers (env : KafkaEnv) : List consumerConfig → List (String × cluster) → WorkersOut
  | [], reg => ⟨reg, [], [], []⟩
  | cc :: rest, reg =>
    let w := specWorker env reg cc
    let tail := runWorkers env rest w.reg
    ⟨tail.reg, w.ops ++ tail.ops, w.errs ++ tail.errs, w.chans ++ tail.chans⟩

/-- The observable outcome of `setupPartitionConsumers`: the Go return
triple (stream list, cluster map, ok) plus, for the properties at issue,
the errors recorded, the errors logged on the failure paths, the close
attempts performed by `closeAll`, and the library-call log. -/
structure SetupResult where
  streams : Option (List Nat)
  clustersOut : Option (List (String × cluster))
  ok : Bool
  recordedErrors : List GoErr
  loggedErrors : List GoErr
  closed : List (String × List CloseEvent)
  ops : List KOp
deriving DecidableEq

/-- Shallow embedding of `setupPartitionConsumers` (lines 114-203): build
the registry, set up the clusters, bail out (log, close all, return
`nil, nil, false`) if any error was recorded, run the partition-consumer
workers, bail out the same way if any error was recorded, otherwise return
the streams and the registry with `ok = true`. -/
def setupPartitionConsumers (conf : Config) (env : KafkaEnv) : SetupResult :=
  let reg0 := buildClusters conf.consumers
  let s := setupClusters env reg0
  if s.errs.isEmpty then
    let w := runWorkers env conf.consumers s.reg
    if w.errs.isEmpty then
      ⟨some w.chans, some w.reg, true, [], [], [], s.ops ++ w.ops⟩
    else
      ⟨none, none, false, w.errs, w.errs, closeAll env w.reg, s.ops ++ w.ops⟩
  else
    ⟨none, none, false, s.errs, s.errs, closeAll env s.reg, s.ops⟩

/-- Does a library call target the given partition (offset queries and
partition-consumer opens)? Used to observe which partitions a worker
attempted. -/
def opTargetsPartition (p : Int) : KOp → Bool
  | .getOffsetOp _ q _ => q = p
  | .consumePartitionOp _ _ q _ => q = p
  | _ => false

/-- The constructor oracles are honest Go implementations: whenever they
report no error they hand back a non-nil value. (sarama's `NewClient` and
`NewConsumerFromClient` satisfy this.) -/
def EnvHonest (env : KafkaEnv) : Prop :=
  (∀ bs, (env.newClient bs).2 = none → (env.newClient bs).1.isSome)
  ∧ (∀ c, (env.newConsumerFromClient c).2 = none → (env.newConsumerFromClient c).1.isSome)

/-- A scheduler decision at a `select` whose message case and quit case are
both ready. -/
inductive SelCase where
  | recv
  | quit
deriving DecidableEq

/-- Shallow embedding of one demultiplexer worker of `demuxMessages` (lines
263-272) after the point where the quit channel may have fired:
`cancelled` says whether `q` is closed, `buffer` holds the messages still
pending on the worker's input stream, and `choices` feeds the
nondeterministic `select` whenever both cases are ready. Returns the
messages the worker forwarded onto the shared output and whether it
exited. -/
def demuxWorker (cancelled : Bool) : List SelCase → List Nat → List Nat × Bool
  | [], _ => ([], false)
  | _ :: chs, [] =>
    if cancelled then ([], true) else ([], false)
  | ch :: chs, m :: rest =>
    if cancelled then
      match ch with
      | .quit => ([], true)
      | .recv =>
        let tail := demuxWorker cancelled chs rest
        (m :: tail.1, tail.2)
    else
      let tail := demuxWorker cancelled chs rest
      (m :: tail.1, tail.2)

/-- Shallow embedding of the `sendMessagesToWsBlocking` loop (lines
297-319) under the same scheduling model as `demuxWorker`: forward each
received message to the sink (`sendOk` telling whether the send succeeds),
returning on a send failure or on the quit signal. Returns the messages
handed to the sink and whether the loop returned. -/
def sendLoop (cancelled : Bool) (sendOk : Nat → Bool) :
    List SelCase → List Nat → List Nat × Bool
  | [], _ => ([], false)
  | _ :: chs, [] =>
    if cancelled then ([], true) else ([], false)
  | ch :: chs, m :: rest =>
    if cancelled then
      match ch with
      | .quit => ([], true)
      | .recv =>
        if sendOk m then
          let tail := sendLoop cancelled sendOk chs rest
          (m :: tail.1, tail.2)
        else ([m], true)
    else
      if sendOk m then
        let tail := sendLoop cancelled sendOk chs rest
        (m :: tail.1, tail.2)
      else ([m], true)

/-- Shallow embedding of the concrete `client` type's `GetOffset` method
(lines 212-214), whose body is exactly `return c.GetOffset(topic,
partition, time)`: the `Nat` argument bounds the call depth explored, and
`none` means no result was produced within that depth. -/
def clientGetOffset : Nat → String → Int → Int → Option (Int × Option GoErr)
  | 0, _, _, _ => none
  | fuel + 1, topic, partition, time => clientGetOffset fuel topic partition time

/-- Shallow embedding of the concrete `client` type's `Close` method
(lines 216-218), whose body is exactly `return c.Close()`. -/
def clientClose : Nat → Option (Option GoErr)
  | 0 => none
  | fuel + 1 => clientClose fuel

/-- A fully healthy oracle environment: every constructor and broker call
succeeds. -/
def envOk : KafkaEnv :=
  { newClient := fun _ => (some 1, none)
  , newConsumerFromClient := fun _ => (some 2, none)
  , partitions := fun _ _ => Except.ok [0, 1]
  , getOffset := fun _ _ _ _ => Except.ok 0
  , consumePartition := fun _ _ _ _ => Except.ok 7
  , closePC := fun _ => none
  , closeConsumer := fun _ => none
  , closeClient := fun _ => none }

/-- An environment whose client constructor fails (connection error). -/
def envFail : KafkaEnv :=
  { newClient := fun _ => (none, some "connection refused")
  , newConsumerFromClient := fun _ => (none, some "no client")
  , partitions := fun _ _ => Except.ok [0, 1]
  , getOffset := fun _ _ _ _ => Except.ok 0
  , consumePartition := fun _ _ _ _ => Except.ok 7
  , closePC := fun _ => none
  , closeConsumer := fun _ => none
  , closeClient := fun _ => none }

/-- An environment whose cluster setup succeeds but whose broker offset
queries all fail. -/
def env3 : KafkaEnv :=
  { newClient := fun _ => (some 1, none)
  , newConsumerFromClient := fun _ => (some 2, none)
  , partitions := fun _ _ => Except.ok [0, 1]
  , getOffset := fun _ _ _ _ => Except.error "broker query failed"
  , consumePartition := fun _ _ _ _ => Except.ok 7
  , closePC := fun _ => none
  , closeConsumer := fun _ => none
  , closeClient := fun _ => none }

/-- An environment whose client constructor succeeds but whose consumer
constructor fails. -/
def env4 : KafkaEnv :=
  { newClient := fun _ => (some 1, none)
  , newConsumerFromClient := fun _ => (none, some "consumer open failed")
  , partitions := fun _ _ => Except.ok [0, 1]
  , getOffset := fun _ _ _ _ => Except.ok 0
  , consumePartition := fun _ _ _ _ => Except.ok 7
  , closePC := fun _ => none
  , closeConsumer := fun _ => none
  , closeClient := fun _ => none }

/-- A configuration with a single spec targeting all partitions of topic
`t` with lookback offset specifier `-5`. -/
def conf3 : Config := ⟨[⟨"t", ["b1"], -1, "-5"⟩]⟩

/-!  Theorems. -/

theorem wrap64_eq_self {x : Int} (h1 : -(2 ^ 63) ≤ x) (h2 : x < 2 ^ 63) : wrap64 x = x := by
  unfold wrap64
  have hnn : 0 ≤ x + 2 ^ 63 := by omega
  have hlt : x + 2 ^ 63 < 2 ^ 64 := by omega
  rw [Int.emod_eq_of_lt hnn hlt]
  omega

theorem int64Chk_range {v n : Int} (h : int64Chk v = some n) :
    -(2 ^ 63) ≤ n ∧ n ≤ 2 ^ 63 - 1 := by
  unfold int64Chk at h
  split at h
  · cases h; assumption
  · simp at h

theorem parseInt64_range {s : String} {n : Int} (h : parseInt64 s = some n) :
    -(2 ^ 63) ≤ n ∧ n ≤ 2 ^ 63 - 1 := by
  unfold parseInt64 at h
  rcases hd : s.data with _ | ⟨c0, cs⟩ <;> rw [hd] at h
  · simp at h
  · dsimp only at h
    repeat' split at h
    all_goals first
      | exact int64Chk_range h
      | simp at h

theorem parseInt64_ne_oldest {s : String} {n : Int} (h : parseInt64 s = some n) :
    s ≠ "oldest" := by
  rintro rfl
  have hnone : parseInt64 "oldest" = none := by decide
  rw [hnone] at h
  cases h

theorem parseInt64_ne_newest {s : String} {n : Int} (h : parseInt64 s = some n) :
    s ≠ "newest" := by
  rintro rfl
  have hnone : parseInt64 "newest" = none := by decide
  rw [hnone] at h
  cases h

/-- C5: `resolveOffset "oldest"` returns the earliest-available sentinel and
`resolveOffset "newest"` the future-messages sentinel, and every parseable
integer specifier `n ≥ -2` (including the sentinel integers `-1` and `-2`) is
returned verbatim — all three without any broker query (empty query log),
whatever the client oracle. -/
theorem resolveOffset_sentinel_passthrough :
    (∀ (brokers : List String) (topic : String) (partition : Int) (client : GetOffsetFn),
        resolveOffset "oldest" brokers topic partition client = (.ok OffsetOldest, []))
  ∧ (∀ (brokers : List String) (topic : String) (partition : Int) (client : GetOffsetFn),
        resolveOffset "newest" brokers topic partition client = (.ok OffsetNewest, []))
  ∧ (∀ (s : String) (n : Int) (brokers : List String) (topic : String) (partition : Int)
        (client : GetOffsetFn), parseInt64 s = some n → -2 ≤ n →
        resolveOffset s brokers topic partition client = (.ok n, [])) := by
  refine ⟨fun brokers topic partition client => by simp [resolveOffset],
          fun brokers topic partition client => by simp [resolveOffset],
          fun s n brokers topic partition client hparse hn => ?_⟩
  have hs1 : s ≠ "oldest" := parseInt64_ne_oldest hparse
  have hs2 : s ≠ "newest" := parseInt64_ne_newest hparse
  simp [resolveOffset, hs1, hs2, hparse, hn]

/-- Witness for C5 at concrete inputs: specifiers `"oldest"`, `"newest"`,
`"-1"`, `"-2"` and `"5"` against a concrete client. -/
theorem resolveOffset_sentinel_passthrough_witness :
    resolveOffset "oldest" ["b1"] "t" 0 (fun _ _ _ => .ok 0) = (.ok OffsetOldest, [])
  ∧ resolveOffset "newest" ["b1"] "t" 0 (fun _ _ _ => .ok 0) = (.ok OffsetNewest, [])
  ∧ resolveOffset "-1" ["b1"] "t" 0 (fun _ _ _ => .ok 0) = (.ok (-1), [])
  ∧ resolveOffset "-2" ["b1"] "t" 0 (fun _ _ _ => .ok 0) = (.ok (-2), [])
  ∧ resolveOffset "5" ["b1"] "t" 0 (fun _ _ _ => .ok 0) = (.ok 5, []) :=
  ⟨resolveOffset_sentinel_passthrough.1 _ _ _ _,
   resolveOffset_sentinel_passthrough.2.1 _ _ _ _,
   resolveOffset_sentinel_passthrough.2.2 "-1" (-1) _ _ _ _ (by decide) (by decide),
   resolveOffset_sentinel_passthrough.2.2 "-2" (-2) _ _ _ _ (by decide) (by decide),
   resolveOffset_sentinel_passthrough.2.2 "5" 5 _ _ _ _ (by decide) (by decide)⟩

/-- C2: for a parseable integer specifier `n < -2`, `resolveOffset` queries
the broker for the oldest offset `O` and then the newest offset `N`; when
both queries succeed (with `N` a genuine broker offset, i.e. a nonnegative
`int64`) it returns `max O (N + n)`; when either query fails it returns that
error (having issued only the queries up to the failure). -/
theorem resolveOffset_lookback (s : String) (n : Int) (brokers : List String) (topic : String)
    (partition : Int) (client : GetOffsetFn)
    (hparse : parseInt64 s = some n) (hn : n < -2) :
    (∀ O N : Int, client topic partition OffsetOldest = .ok O →
        client topic partition OffsetNewest = .ok N → 0 ≤ N → N < 2 ^ 63 →
        resolveOffset s brokers topic partition client =
          (.ok (max O (N + n)),
           [.getOffsetOp topic partition OffsetOldest, .getOffsetOp topic partition OffsetNewest]))
  ∧ (∀ e : GoErr, client topic partition OffsetOldest = .error e →
        resolveOffset s brokers topic partition client =
          (.error e, [.getOffsetOp topic partition OffsetOldest]))
  ∧ (∀ (O : Int) (e : GoErr), client topic partition OffsetOldest = .ok O →
        client topic partition OffsetNewest = .error e →
        resolveOffset s brokers topic partition client =
          (.error e,
           [.getOffsetOp topic partition OffsetOldest, .getOffsetOp topic partition OffsetNewest])) := by
  have hs1 : s ≠ "oldest" := parseInt64_ne_oldest hparse
  have hs2 : s ≠ "newest" := parseInt64_ne_newest hparse
  have hge : ¬ (n ≥ -2) := by omega
  have hrange := parseInt64_range hparse
  refine ⟨fun O N hO hN hN0 hNlt => ?_, fun e hO => ?_, fun O e hO hN => ?_⟩
  · have hw : wrap64 (N + n) = N + n := wrap64_eq_self (by omega) (by omega)
    rcases lt_or_le (N + n) O with hlt | hle
    · have hmax : max O (N + n) = O := max_eq_left (le_of_lt hlt)
      simp [resolveOffset, hs1, hs2, hparse, hge, hO, hN, hw, hlt, hmax]
    · have hmax : max O (N + n) = N + n := max_eq_right hle
      have hnlt : ¬ (N + n < O) := not_lt.mpr hle
      simp [resolveOffset, hs1, hs2, hparse, hge, hO, hN, hw, hnlt, hmax]
  · simp [resolveOffset, hs1, hs2, hparse, hge, hO]
  · simp [resolveOffset, hs1, hs2, hparse, hge, hO, hN]

/-- Witness for C2: with newest = 100 and oldest = 10, specifier `"-50"`
resolves to 50 and specifier `"-95"` clamps to 10, each after exactly the
two broker queries. -/
theorem resolveOffset_lookback_witness :
    resolveOffset "-50" ["b1"] "t" 0
        (fun _ _ time => if time = OffsetOldest then .ok 10 else .ok 100) =
      (.ok 50, [.getOffsetOp "t" 0 OffsetOldest, .getOffsetOp "t" 0 OffsetNewest])
  ∧ resolveOffset "-95" ["b1"] "t" 0
        (fun _ _ time => if time = OffsetOldest then .ok 10 else .ok 100) =
      (.ok 10, [.getOffsetOp "t" 0 OffsetOldest, .getOffsetOp "t" 0 OffsetNewest]) := by
  constructor
  · have h := (resolveOffset_lookback "-50" (-50) ["b1"] "t" 0
        (fun _ _ time => if time = OffsetOldest then .ok 10 else .ok 100)
        (by decide) (by decide)).1 10 100 (by decide) (by decide) (by decide) (by decide)
    rw [h]; decide
  · have h := (resolveOffset_lookback "-95" (-95) ["b1"] "t" 0
        (fun _ _ time => if time = OffsetOldest then .ok 10 else .ok 100)
        (by decide) (by decide)).1 10 100 (by decide) (by decide) (by decide) (by decide)
    rw [h]; decide

/-- C6: a specifier that is neither `"oldest"`, `"newest"`, nor a parseable
signed 64-bit integer literal makes `resolveOffset` fail with the
invalid-offset-specifier error, with no broker query. -/
theorem resolveOffset_invalid (s : String) (brokers : List String) (topic : String)
    (partition : Int) (client : GetOffsetFn)
    (hs1 : s ≠ "oldest") (hs2 : s ≠ "newest") (hparse : parseInt64 s = none) :
    resolveOffset s brokers topic partition client =
      (.error "Invalid value for consumer offset", []) := by
  simp [resolveOffset, hs1, hs2, hparse]

/-- Witness for C6 at the concrete specifier `"abc"`. -/
theorem resolveOffset_invalid_witness :
    resolveOffset "abc" ["b1"] "t" 0 (fun _ _ _ => .ok 0) =
      (.error "Invalid value for consumer offset", []) :=
  resolveOffset_invalid "abc" ["b1"] "t" 0 (fun _ _ _ => .ok 0)
    (by decide) (by decide) (by decide)

theorem closePCLoop_kinds (env : KafkaEnv) (pcs : List Nat) :
    (closePCLoop env pcs).map CloseEvent.kind = pcs.map CloseKind.pc := by
  induction pcs with
  | nil => rfl
  | cons p rest ih =>
    unfold closePCLoop
    cases env.closePC p <;> simp [CloseEvent.kind, ih]

/-- C8: `cluster.close` attempts to close all partition consumers first,
then the consumer, then the client; whatever errors any of the close calls
report (the oracle environment is universally quantified, so every failure
pattern is covered), every resource is still attempted, in that order. -/
theorem cluster_close_best_effort (env : KafkaEnv) (c : cluster) :
    (cluster.close env c).map CloseEvent.kind =
      c.partitionConsumers.map CloseKind.pc ++ [CloseKind.consumer, CloseKind.client] := by
  unfold cluster.close
  cases env.closeConsumer c.consumer <;> cases env.closeClient c.client <;>
    simp [closePCLoop_kinds, CloseEvent.kind]

/-- C10: the concrete `client` type's `GetOffset` and `Close` methods call
themselves unconditionally with the same arguments and have no base case:
for every call-depth budget, neither produces a result. -/
theorem client_methods_never_return :
    (∀ (fuel : Nat) (topic : String) (partition time : Int),
        clientGetOffset fuel topic partition time = none)
  ∧ (∀ fuel : Nat, clientClose fuel = none) := by
  constructor
  · intro fuel
    induction fuel with
    | zero => intro topic partition time; rfl
    | succ n ih => intro topic partition time; exact ih topic partition time
  · intro fuel
    induction fuel with
    | zero => rfl
    | succ n ih => exact ih

/-- C9 counterexample: the cancellation signal has fired (quit channel
closed) while the worker's input stream still buffers message 42; Go's
`select` picks among ready cases nondeterministically, and under the
schedule that picks the message case first the worker forwards message 42
after cancellation — refuting the claim that after cancellation no
demultiplexer worker delivers any further message. -/
theorem demux_cancellation_counterexample :
    demuxWorker true [SelCase.recv, SelCase.quit] [42] = ([42], true)
  ∧ ([42] : List Nat) ≠ [] := by
  constructor
  · rfl
  · decide

/-- C9 amended: once a demultiplexer worker's `select` takes the
cancellation branch, the worker exits immediately and forwards nothing,
and once the forwarding loop's `select` takes the cancellation branch it
returns immediately without sending — for every buffer state and sink.
(The original claim fails only in that a worker may still forward buffered
messages after cancellation before its `select` happens to take the
cancellation branch.) -/
theorem demux_cancellation_amended :
    (∀ (chs : List SelCase) (buffer : List Nat),
        demuxWorker true (SelCase.quit :: chs) buffer = ([], true))
  ∧ (∀ (sendOk : Nat → Bool) (chs : List SelCase) (buffer : List Nat),
        sendLoop true sendOk (SelCase.quit :: chs) buffer = ([], true)) := by
  constructor
  · intro chs buffer
    cases buffer <;> rfl
  · intro sendOk chs buffer
    cases buffer <;> rfl

theorem regLookup_isSome_iff (reg : List (String × cluster)) (b : String) :
    (regLookup reg b).isSome ↔ b ∈ reg.map Prod.fst := by
  induction reg with
  | nil => simp [regLookup]
  | cons kc rest ih =>
    rcases kc with ⟨k, c⟩
    by_cases hk : k = b
    · subst hk
      simp [regLookup]
    · simp [regLookup, hk, ih, Ne.symm hk]

theorem insertCluster_keys_mono (reg : List (String × cluster)) (c : consumerConfig)
    (x : String) (hx : x ∈ reg.map Prod.fst) : x ∈ (insertCluster reg c).map Prod.fst := by
  unfold insertCluster
  split
  · exact hx
  · simp only [List.map_append]
    exact List.mem_append_left _ hx

theorem insertCluster_mem_self (reg : List (String × cluster)) (c : consumerConfig) :
    joinComma c.brokers ∈ (insertCluster reg c).map Prod.fst := by
  unfold insertCluster
  split
  · next hs => exact (regLookup_isSome_iff reg (joinComma c.brokers)).mp hs
  · simp

theorem insertCluster_nodup (reg : List (String × cluster)) (c : consumerConfig)
    (h : (reg.map Prod.fst).Nodup) : ((insertCluster reg c).map Prod.fst).Nodup := by
  unfold insertCluster
  split
  · exact h
  · next hs =>
    have hnotmem : joinComma c.brokers ∉ reg.map Prod.fst := by
      intro hmem
      exact hs ((regLookup_isSome_iff reg (joinComma c.brokers)).mpr hmem)
    simp only [List.map_append, List.map_cons, List.map_nil]
    simp [List.nodup_append, h, hnotmem]

theorem foldl_insertCluster_keys_mono (l : List consumerConfig) :
    ∀ (reg : List (String × cluster)) (x : String), x ∈ reg.map Prod.fst →
      x ∈ (l.foldl insertCluster reg).map Prod.fst := by
  induction l with
  | nil => intro reg x hx; exact hx
  | cons c rest ih =>
    intro reg x hx
    exact ih (insertCluster reg c) x (insertCluster_keys_mono reg c x hx)

theorem foldl_insertCluster_nodup (l : List consumerConfig) :
    ∀ reg : List (String × cluster), (reg.map Prod.fst).Nodup →
      ((l.foldl insertCluster reg).map Prod.fst).Nodup := by
  induction l with
  | nil => intro reg h; exact h
  | cons c rest ih =>
    intro reg h
    exact ih (insertCluster reg c) (insertCluster_nodup reg c h)

theorem foldl_insertCluster_mem (l : List consumerConfig) :
    ∀ (reg : List (String × cluster)) (cc : consumerConfig), cc ∈ l →
      joinComma cc.brokers ∈ (l.foldl insertCluster reg).map Prod.fst := by
  induction l with
  | nil => intro reg cc hcc; cases hcc
  | cons c rest ih =>
    intro reg cc hcc
    rcases List.mem_cons.mp hcc with rfl | htail
    · exact foldl_insertCluster_keys_mono rest (insertCluster reg cc) _
        (insertCluster_mem_self reg cc)
    · exact ih (insertCluster reg c) cc htail

/-- C7: the registry built by `setupPartitionConsumers` maps each distinct
comma-joined broker list to exactly one cluster (keys are duplicate-free
and every configured spec's key is present), two specs with identical
broker lists look up the same cluster entry, and two specs whose broker
lists are permutations of each other but not equal may yield two distinct
clusters. -/
theorem cluster_registry_dedup :
    (∀ consumers : List consumerConfig,
        ((buildClusters consumers).map Prod.fst).Nodup
      ∧ (∀ cc ∈ consumers,
            (regLookup (buildClusters consumers) (joinComma cc.brokers)).isSome)
      ∧ (∀ cc1 cc2 : consumerConfig, cc1 ∈ consumers → cc2 ∈ consumers →
            cc1.brokers = cc2.brokers →
            regLookup (buildClusters consumers) (joinComma cc1.brokers)
              = regLookup (buildClusters consumers) (joinComma cc2.brokers)))
  ∧ (∃ (consumers : List consumerConfig) (cc1 cc2 : consumerConfig),
        cc1 ∈ consumers ∧ cc2 ∈ consumers ∧ cc1.brokers ≠ cc2.brokers
      ∧ cc1.brokers.Perm cc2.brokers ∧ (buildClusters consumers).length = 2) := by
  constructor
  · intro consumers
    refine ⟨foldl_insertCluster_nodup consumers [] (by simp), fun cc hcc => ?_, ?_⟩
    · exact (regLookup_isSome_iff _ _).mpr (foldl_insertCluster_mem consumers [] cc hcc)
    · intro cc1 cc2 h1 h2 heq
      rw [heq]
  · refine ⟨[⟨"t", ["a", "b"], 0, "oldest"⟩, ⟨"t", ["b", "a"], 0, "oldest"⟩],
      ⟨"t", ["a", "b"], 0, "oldest"⟩, ⟨"t", ["b", "a"], 0, "oldest"⟩,
      by decide, by decide, by decide, ?_, by decide⟩
    decide

/-- Witness for C7 at a concrete configuration of two specs sharing the
broker list `["a"]`. -/
theorem cluster_registry_dedup_witness :
    ((buildClusters [⟨"t", ["a"], 0, "oldest"⟩, ⟨"u", ["a"], 1, "newest"⟩]).map Prod.fst).Nodup
  ∧ (regLookup (buildClusters [⟨"t", ["a"], 0, "oldest"⟩, ⟨"u", ["a"], 1, "newest"⟩])
      (joinComma ["a"])).isSome :=
  ⟨(cluster_registry_dedup.1 _).1,
   (cluster_registry_dedup.1 [⟨"t", ["a"], 0, "oldest"⟩, ⟨"u", ["a"], 1, "newest"⟩]).2.1
     ⟨"t", ["a"], 0, "oldest"⟩ (by decide)⟩

theorem errMsgOpt_nil {pre : String} {o : Option GoErr} (h : errMsgOpt pre o = []) : o = none := by
  cases o with
  | none => rfl
  | some err => simp [errMsgOpt] at h

theorem setupClustersStep_handles (env : KafkaEnv) (hh : EnvHonest env) (c : cluster)
    (h : (setupClustersStep env c).2.1 = []) :
    (setupClustersStep env c).1.client.isSome ∧ (setupClustersStep env c).1.consumer.isSome := by
  unfold setupClustersStep at *
  rcases List.append_eq_nil.mp h with ⟨h1, h2⟩
  exact ⟨hh.1 c.brokers (errMsgOpt_nil h1), hh.2 _ (errMsgOpt_nil h2)⟩

theorem setupClusters_keys (env : KafkaEnv) (reg : List (String × cluster)) :
    (setupClusters env reg).reg.map Prod.fst = reg.map Prod.fst := by
  induction reg with
  | nil => rfl
  | cons kc rest ih =>
    rcases kc with ⟨k0, c0⟩
    simp [setupClusters, ih]

theorem setupClusters_handles (env : KafkaEnv) (hh : EnvHonest env)
    (reg : List (String × cluster)) :
    (setupClusters env reg).errs = [] →
      ∀ (k : String) (c : cluster), regLookup (setupClusters env reg).reg k = some c →
        c.client.isSome ∧ c.consumer.isSome := by
  induction reg with
  | nil =>
    intro _ k c hc
    simp [setupClusters, regLookup] at hc
  | cons kc rest ih =>
    rcases kc with ⟨k0, c0⟩
    intro herrs k c hc
    simp only [setupClusters] at herrs hc
    rcases List.append_eq_nil.mp herrs with ⟨h1, h2⟩
    simp only [regLookup] at hc
    split at hc
    · cases hc
      exact setupClustersStep_handles env hh c0 h1
    · exact ih h2 k c hc

/-- C4 counterexample: `env4`'s client constructor succeeds (handle 1)
while its consumer constructor fails; after `setupClusters` the cluster
holds a set client paired with an unset consumer, because both handles are
assigned unconditionally — refuting the claimed both-unset-or-both-set
invariant. -/
theorem setupClusters_handles_counterexample :
    regLookup (setupClusters env4 (buildClusters [⟨"t", ["b1"], 0, "oldest"⟩])).reg "b1"
      = some ⟨["b1"], some 1, none, []⟩ := by
  decide

/-- C4 amended: because `setupClusters` assigns the constructor results
unconditionally, a cluster can end with a set client and an unset consumer
(counterexample above); what does hold is that whenever `setupClusters`
records no error — the only case in which `setupPartitionConsumers`
proceeds to open partition consumers — every cluster of the registry has
both client and consumer set (given constructors that return a handle
whenever they return no error), and in particular every configured spec's
worker finds a fully set cluster, so no partition-consumer is opened
against a cluster with an unset handle. -/
theorem setupClusters_amended (env : KafkaEnv) (hhonest : EnvHonest env) (conf : Config)
    (hok : (setupClusters env (buildClusters conf.consumers)).errs = []) :
    (∀ (k : String) (c : cluster),
        regLookup (setupClusters env (buildClusters conf.consumers)).reg k = some c →
        c.client.isSome ∧ c.consumer.isSome)
  ∧ (∀ cc ∈ conf.consumers, ∃ c : cluster,
        regLookup (setupClusters env (buildClusters conf.consumers)).reg (joinComma cc.brokers)
          = some c ∧ c.client.isSome ∧ c.consumer.isSome) := by
  have hmain := setupClusters_handles env hhonest (buildClusters conf.consumers) hok
  refine ⟨hmain, fun cc hcc => ?_⟩
  have hmem : joinComma cc.brokers
      ∈ (setupClusters env (buildClusters conf.consumers)).reg.map Prod.fst := by
    rw [setupClusters_keys]
    exact foldl_insertCluster_mem conf.consumers [] cc hcc
  rcases Option.isSome_iff_exists.mp ((regLookup_isSome_iff _ _).mpr hmem) with ⟨c, hc⟩
  exact ⟨c, hc, hmain _ c hc⟩

/-- Witness for C4 at a concrete healthy environment and one-spec
configuration. -/
theorem setupClusters_amended_witness :
    ∃ c : cluster,
      regLookup (setupClusters envOk (buildClusters [⟨"t", ["b1"], 0, "oldest"⟩])).reg
          (joinComma ["b1"]) = some c ∧ c.client.isSome ∧ c.consumer.isSome :=
  (setupClusters_amended envOk ⟨fun _ _ => rfl, fun _ _ => rfl⟩ ⟨[⟨"t", ["b1"], 0, "oldest"⟩]⟩
    (by decide)).2 ⟨"t", ["b1"], 0, "oldest"⟩ (by decide)

theorem regUpdate_keys (reg : List (String × cluster)) (b : String) (pcs : List Nat) :
    (regUpdate reg b pcs).map Prod.fst = reg.map Prod.fst := by
  induction reg with
  | nil => rfl
  | cons kc rest ih =>
    rcases kc with ⟨k, c⟩
    by_cases hk : k = b <;> simp [regUpdate, hk, ih]

theorem specWorker_keys (env : KafkaEnv) (reg : List (String × cluster)) (cc : consumerConfig) :
    (specWorker env reg cc).reg.map Prod.fst = reg.map Prod.fst := by
  rcases hl : regLookup reg (joinComma cc.brokers) with _ | cl
  · simp only [specWorker, hl]
  · by_cases hp : cc.partition = -1
    · rcases hps : env.partitions cl.consumer cc.topic with e | parts <;>
        simp [specWorker, hl, hp, hps, regUpdate_keys]
    · simp [specWorker, hl, hp, regUpdate_keys]

theorem runWorkers_keys (env : KafkaEnv) (l : List consumerConfig) :
    ∀ reg : List (String × cluster),
      (runWorkers env l reg).reg.map Prod.fst = reg.map Prod.fst := by
  induction l with
  | nil => intro reg; rfl
  | cons cc rest ih =>
    intro reg
    simp only [runWorkers]
    rw [ih, specWorker_keys]

theorem closeAll_keys (env : KafkaEnv) (reg : List (String × cluster)) :
    (closeAll env reg).map Prod.fst = reg.map Prod.fst := by
  induction reg with
  | nil => rfl
  | cons kc rest ih => simp [closeAll]

/-- C1: whenever any error is recorded during cluster setup or during
partition-consumer setup, `setupPartitionConsumers` logs exactly the
collected errors, closes every cluster in the registry (the close log is
keyed by every registry key), and returns failure: nil stream list, nil
cluster map, `ok = false` — no partial set of open consumers is returned. -/
theorem setup_all_or_nothing (conf : Config) (env : KafkaEnv)
    (herr : (setupPartitionConsumers conf env).recordedErrors ≠ []) :
    (setupPartitionConsumers conf env).ok = false
  ∧ (setupPartitionConsumers conf env).streams = none
  ∧ (setupPartitionConsumers conf env).clustersOut = none
  ∧ (setupPartitionConsumers conf env).loggedErrors
      = (setupPartitionConsumers conf env).recordedErrors
  ∧ (setupPartitionConsumers conf env).closed.map Prod.fst
      = (buildClusters conf.consumers).map Prod.fst := by
  simp only [setupPartitionConsumers] at herr ⊢
  by_cases h1 : (setupClusters env (buildClusters conf.consumers)).errs.isEmpty
  · rw [if_pos h1] at herr ⊢
    by_cases h2 : (runWorkers env conf.consumers
        (setupClusters env (buildClusters conf.consumers)).reg).errs.isEmpty
    · rw [if_pos h2] at herr
      exact absurd rfl herr
    · rw [if_neg h2] at herr ⊢
      refine ⟨rfl, rfl, rfl, rfl, ?_⟩
      rw [closeAll_keys, runWorkers_keys, setupClusters_keys]
  · rw [if_neg h1] at herr ⊢
    refine ⟨rfl, rfl, rfl, rfl, ?_⟩
    rw [closeAll_keys, setupClusters_keys]

/-- Witness for C1: a one-spec configuration against `envFail`, whose
client constructor fails; errors are recorded and the bootstrap reports
total failure. -/
theorem setup_all_or_nothing_witness :
    (setupPartitionConsumers ⟨[⟨"t", ["b1"], 0, "oldest"⟩]⟩ envFail).recordedErrors ≠ []
  ∧ (setupPartitionConsumers ⟨[⟨"t", ["b1"], 0, "oldest"⟩]⟩ envFail).ok = false
  ∧ (setupPartitionConsumers ⟨[⟨"t", ["b1"], 0, "oldest"⟩]⟩ envFail).streams = none
  ∧ (setupPartitionConsumers ⟨[⟨"t", ["b1"], 0, "oldest"⟩]⟩ envFail).closed.map Prod.fst
      = ["b1"] := by
  refine ⟨by decide, ?_, ?_, ?_⟩
  · exact (setup_all_or_nothing ⟨[⟨"t", ["b1"], 0, "oldest"⟩]⟩ envFail (by decide)).1
  · exact (setup_all_or_nothing ⟨[⟨"t", ["b1"], 0, "oldest"⟩]⟩ envFail (by decide)).2.1
  · rw [(setup_all_or_nothing ⟨[⟨"t", ["b1"], 0, "oldest"⟩]⟩ envFail (by decide)).2.2.2.2]
    decide

/-- C3 counterexample: `conf3`'s single spec targets all partitions of
topic `t`; the broker lists partitions 0 and 1 and every offset query
fails. The claim says the worker still attempts offset resolution and
partition-consumer opening for partition 1; in fact the failure at
partition 0 makes the worker return: the operation log contains no call
targeting partition 1, and only one error is recorded instead of one per
partition. -/
theorem partition_abort_counterexample :
    env3.partitions (some 2) "t" = .ok [0, 1]
  ∧ (setupPartitionConsumers conf3 env3).recordedErrors.length = 1
  ∧ (setupPartitionConsumers conf3 env3).ops.filter (opTargetsPartition 1) = []
  ∧ (setupPartitionConsumers conf3 env3).ops.filter (opTargetsPartition 0)
      = [.getOffsetOp "t" 0 OffsetOldest] := by
  refine ⟨by decide, by decide, by decide, by decide⟩

/-- C3 amended: in a `setupPartitionConsumers` worker, a failure to resolve
the offset of one target partition records that error and executes Go's
`return`, aborting the whole partition loop of that spec: the worker's
remaining output consists of exactly the failing partition's broker
queries and the single error — no offset resolution or partition-consumer
opening is attempted for the remaining target partitions of the spec. -/
theorem consumeLoop_abort (env : KafkaEnv) (clientH consumerH : Option Nat)
    (cc : consumerConfig) (p : Int) (rest : List Int) (e : GoErr)
    (h : (resolveOffset cc.offset cc.brokers cc.topic p (env.getOffset clientH)).1
          = .error e) :
    consumeLoop env clientH consumerH cc (p :: rest) =
      ⟨(resolveOffset cc.offset cc.brokers cc.topic p (env.getOffset clientH)).2,
       ["Could not resolve offset for " ++ joinComma cc.brokers ++ ", " ++ cc.topic ++ ", "
          ++ toString p ++ ". err=" ++ e], [], []⟩ := by
  simp only [consumeLoop, h]

/-- Witness for C3's amended claim: with two target partitions and the
offset query failing at partition 0, the loop stops at partition 0. -/
theorem consumeLoop_abort_witness :
    consumeLoop env3 (some 1) (some 2) ⟨"t", ["b1"], -1, "-5"⟩ [0, 1] =
      ⟨[.getOffsetOp "t" 0 OffsetOldest],
       ["Could not resolve offset for b1, t, 0. err=broker query failed"], [], []⟩ := by
  rw [consumeLoop_abort env3 (some 1) (some 2) ⟨"t", ["b1"], -1, "-5"⟩ 0 [1]
    "broker query failed" (by decide)]
  decide
